import Mathlib

/-!
Verification of the geoq entity classification and lazy-conversion pipeline.

The repository source under version control here contains only the CLI
dispatcher (src/main.rs); the geoq library modules (input classification,
entity conversion, predicate filter, error enum) are declared there
(`mod geoq`) but their files are not present. Definitions for those parts
are modelled from the specification, as marked in their doc comments.
External collaborators (JSON codec, WKT codec, geohash codec, geometry
algorithms) are modelled as function parameters, matching the spec, which
places their internals out of scope.

Coordinates and parsed numeric components are modelled as exact rationals;
the spec's range checks and component swap do not depend on IEEE-754
rounding for decimal literals.
-/

/-- Modelled from the spec: the closed FormatTag enumeration of geoq
(missing geoq input module), §3 of the spec. -/
inductive FormatTag where
  | LatLon
  | Geohash
  | Wkt
  | GeoJsonGeometry
  | GeoJsonFeature
  | GeoJsonFeatureCollection
  | Unrecognized
deriving DecidableEq, Repr

/-- Modelled from the spec: the three GeoJSON top-level shapes the external
JSON probe can report (spec §4.1 step 4). -/
inductive GeoJsonKind where
  | geometry
  | feature
  | featureCollection
deriving DecidableEq, Repr

/-- Split a character list on commas (model of splitting the raw text on
the comma, spec §4.1 step 1 and §4.2 LatLon rule). -/
def splitOnComma : List Char → List (List Char)
  | [] => [[]]
  | c :: rest =>
    if c = ',' then [] :: splitOnComma rest
    else
      match splitOnComma rest with
      | [] => [[c]]
      | h :: t => (c :: h) :: t

/-- Strip leading and trailing whitespace from a character list. -/
def trimChars (cs : List Char) : List Char :=
  ((cs.dropWhile Char.isWhitespace).reverse.dropWhile Char.isWhitespace).reverse

/-- Numeric value of a digit list, most significant first. -/
def natOfDigits (ds : List Char) : Nat :=
  ds.foldl (fun acc c => 10 * acc + (c.toNat - (Char.toNat (Char.ofNat 48)))) 0

/-- Parse an unsigned decimal literal (digits, optionally a dot and more
digits) as an exact rational; none if the shape is wrong. -/
def parseUnsigned (cs : List Char) : Option ℚ :=
  let ip := cs.takeWhile Char.isDigit
  let rest := cs.dropWhile Char.isDigit
  if ip = [] then none
  else
    match rest with
    | [] => some (natOfDigits ip)
    | c :: fracRest =>
      if c = '.' then
        let fp := fracRest.takeWhile Char.isDigit
        if fracRest.dropWhile Char.isDigit = [] then
          some ((natOfDigits ip : ℚ) + (natOfDigits fp : ℚ) / (10 ^ fp.length : ℚ))
        else none
      else none

/-- Parse a signed decimal float literal (optional leading minus sign). -/
def parseDecimal (cs : List Char) : Option ℚ :=
  match cs with
  | c :: rest => if c = '-' then (parseUnsigned rest).map (fun q => -q) else parseUnsigned cs
  | [] => none

/-- Modelled from the spec: the numeric-pair pattern of FormatSniffer rule 1
(missing geoq input module): the trimmed text is `float,float` optionally
with whitespace; returns the two parsed components (latitude first, in
textual order). -/
def latlonParse (raw : String) : Option (ℚ × ℚ) :=
  match (splitOnComma raw.data).map (fun p => parseDecimal (trimChars p)) with
  | [some a, some b] => some (a, b)
  | _ => none

/-- The base-32 geohash alphabet (spec §4.1 rule 2). -/
def geohashAlphabet : List Char :=
  ['0', '1', '2', '3', '4', '5', '6', '7', '8', '9',
   'b', 'c', 'd', 'e', 'f', 'g', 'h', 'j', 'k', 'm',
   'n', 'p', 'q', 'r', 's', 't', 'u', 'v', 'w', 'x', 'y', 'z']

/-- Modelled from the spec: FormatSniffer rule 2 (missing geoq input
module): the text matches the geohash alphabet exactly, length 1 to 12. -/
def isGeohashText (raw : String) : Bool :=
  decide (1 ≤ raw.data.length) && decide (raw.data.length ≤ 12)
    && raw.data.all (fun c => geohashAlphabet.contains c)

/-- The seven WKT geometry keywords (spec §4.1 rule 3). -/
def wktKeywords : List (List Char) :=
  ["POINT".data, "LINESTRING".data, "POLYGON".data, "MULTIPOINT".data,
   "MULTILINESTRING".data, "MULTIPOLYGON".data, "GEOMETRYCOLLECTION".data]

/-- Modelled from the spec: FormatSniffer rule 3 (missing geoq input
module): the text begins with a WKT geometry keyword, case-insensitively. -/
def isWktText (raw : String) : Bool :=
  wktKeywords.any (fun kw => kw.isPrefixOf (raw.data.map Char.toUpper))

/-- Modelled from the spec: FormatSniffer classification (missing geoq
input module), spec §4.1: an ordered, first-match-wins chain of predicate
checks. `jsonProbe` stands for the external JSON codec of rule 4: it
returns the GeoJSON kind when the text parses as JSON whose top-level
`type` field is a GeoJSON geometry name, Feature, or FeatureCollection,
and none otherwise. -/
def classify (jsonProbe : String → Option GeoJsonKind) (line : String) : FormatTag :=
  if (latlonParse line).isSome then FormatTag.LatLon
  else if isGeohashText line then FormatTag.Geohash
  else if isWktText line then FormatTag.Wkt
  else
    match jsonProbe line with
    | some GeoJsonKind.geometry => FormatTag.GeoJsonGeometry
    | some GeoJsonKind.feature => FormatTag.GeoJsonFeature
    | some GeoJsonKind.featureCollection => FormatTag.GeoJsonFeatureCollection
    | none => FormatTag.Unrecognized

/-- The tag corresponding to a successful JSON probe result. -/
def tagOfJsonKind : GeoJsonKind → FormatTag
  | GeoJsonKind.geometry => FormatTag.GeoJsonGeometry
  | GeoJsonKind.feature => FormatTag.GeoJsonFeature
  | GeoJsonKind.featureCollection => FormatTag.GeoJsonFeatureCollection

/-- A JSON probe that recognizes nothing, for concrete evaluations. -/
def probeNone : String → Option GeoJsonKind := fun _ => none

/-- C1: classification is an ordered first-match-wins chain: the numeric
float-pair pattern is checked before the geohash alphabet, the geohash
alphabet before the WKT keywords, and the WKT keywords before JSON probing,
so a line matching an earlier rule receives that rule's tag regardless of
any later rule it might also match. -/
theorem classify_first_match_wins (probe : String → Option GeoJsonKind) (line : String) :
    ((latlonParse line).isSome = true → classify probe line = FormatTag.LatLon) ∧
    ((latlonParse line).isSome = false → isGeohashText line = true →
      classify probe line = FormatTag.Geohash) ∧
    ((latlonParse line).isSome = false → isGeohashText line = false →
      isWktText line = true → classify probe line = FormatTag.Wkt) ∧
    ((latlonParse line).isSome = false → isGeohashText line = false →
      isWktText line = false → ∀ k, probe line = some k →
      classify probe line = tagOfJsonKind k) := by
  refine ⟨?_, ?_, ?_, ?_⟩
  · intro h; simp [classify, h]
  · intro h1 h2; simp [classify, h1, h2]
  · intro h1 h2 h3; simp [classify, h1, h2, h3]
  · intro h1 h2 h3 k hk
    simp [classify, h1, h2, h3, hk]
    cases k <;> simp [tagOfJsonKind]

/-- Witness for C1: "12.5,-99" matches the numeric-pair rule and is tagged
LatLon; "9q5" fails the numeric-pair rule, matches the geohash rule, and is
tagged Geohash. -/
theorem classify_first_match_wins_witness :
    ((latlonParse "12.5,-99").isSome = true ∧ classify probeNone "12.5,-99" = FormatTag.LatLon)
    ∧ ((latlonParse "9q5").isSome = false ∧ isGeohashText "9q5" = true ∧
        classify probeNone "9q5" = FormatTag.Geohash) :=
  ⟨⟨by decide, (classify_first_match_wins probeNone "12.5,-99").1 (by decide)⟩,
   ⟨by decide, by decide,
    (classify_first_match_wins probeNone "9q5").2.1 (by decide) (by decide)⟩⟩

/-- C2: classification is total: every string receives exactly one tag, and
when no rule matches (no numeric pair, no geohash text, no WKT keyword, and
the JSON probe recognizes nothing) the catch-all tag Unrecognized is
returned. -/
theorem classify_total_catchall (probe : String → Option GeoJsonKind) (line : String) :
    (∃! t : FormatTag, classify probe line = t) ∧
    ((latlonParse line).isSome = false → isGeohashText line = false →
      isWktText line = false → probe line = none →
      classify probe line = FormatTag.Unrecognized) := by
  refine ⟨⟨classify probe line, rfl, fun t ht => ht.symm⟩, ?_⟩
  intro h1 h2 h3 h4
  simp [classify, h1, h2, h3, h4]

/-- Witness for C2: "hello world!" matches no rule and is tagged
Unrecognized. -/
theorem classify_total_catchall_witness :
    classify probeNone "hello world!" = FormatTag.Unrecognized :=
  (classify_total_catchall probeNone "hello world!").2
    (by decide) (by decide) (by decide) rfl

/-- Modelled from the spec: the canonical Geometry representation (missing
geoq geometry code), spec §3: coordinates are ordered (longitude, latitude)
pairs, here exact rationals. -/
inductive Geometry where
  | point (lon lat : ℚ)
  | lineString (coords : List (ℚ × ℚ))
  | polygon (rings : List (List (ℚ × ℚ)))
  | multiPoint (coords : List (ℚ × ℚ))
  | multiLineString (lines : List (List (ℚ × ℚ)))
  | multiPolygon (polys : List (List (List (ℚ × ℚ))))
  | geometryCollection (geoms : List Geometry)

/-- Modelled from the spec: the ConversionError taxonomy (missing geoq
error module), spec §7. -/
inductive ConversionError where
  | rangeError
  | parseError (raw : String)
  | missingGeometryError
  | unsupportedPredicateGeometry
deriving DecidableEq, Repr

/-- Modelled from the spec: the LatLon decode rule of GeometryBridge
(missing geoq entity module), spec §4.2: split on comma, first component is
latitude, second is longitude, fail with RangeError when the magnitude of
the latitude exceeds 90 or the magnitude of the longitude exceeds 180, and
otherwise produce a Point at (lon, lat). -/
def latlonGeometry (raw : String) : Except ConversionError Geometry :=
  match latlonParse raw with
  | none => Except.error (ConversionError.parseError raw)
  | some (lat, lon) =>
    if 90 < |lat| ∨ 180 < |lon| then Except.error ConversionError.rangeError
    else Except.ok (Geometry.point lon lat)

/-- C3: for a LatLon-tagged entity, whose raw text by the sniffing rule
splits on the comma into two parseable numeric components lat and lon,
classification indeed tags it LatLon, conversion fails with RangeError
exactly when the magnitude of lat exceeds 90 or the magnitude of lon
exceeds 180, and otherwise produces a Point at (lon, lat), the components
swapped from their textual order. -/
theorem latlon_to_geometry_spec (raw : String) (lat lon : ℚ)
    (h : latlonParse raw = some (lat, lon)) :
    (∀ probe, classify probe raw = FormatTag.LatLon) ∧
    (latlonGeometry raw = Except.error ConversionError.rangeError ↔
      90 < |lat| ∨ 180 < |lon|) ∧
    (|lat| ≤ 90 → |lon| ≤ 180 →
      latlonGeometry raw = Except.ok (Geometry.point lon lat)) := by
  refine ⟨fun probe => by simp [classify, h], ?_, ?_⟩
  · constructor
    · intro hr
      by_contra hc
      push_neg at hc
      simp [latlonGeometry, h, hc.1.not_lt, hc.2.not_lt] at hr
    · intro hrange
      simp [latlonGeometry, h, hrange]
  · intro h1 h2
    simp [latlonGeometry, h, h1.not_lt, h2.not_lt]

/-- Witness for C3: "10, -20" parses to latitude 10 and longitude -20, is
classified LatLon, and converts to the Point (-20, 10), swapped from the
textual order. -/
theorem latlon_to_geometry_spec_witness :
    latlonParse "10, -20" = some ((10 : ℚ), (-20 : ℚ)) ∧
    classify probeNone "10, -20" = FormatTag.LatLon ∧
    latlonGeometry "10, -20" =
      Except.ok (Geometry.point (-20 : ℚ) (10 : ℚ)) := by
  have hp : latlonParse "10, -20" = some ((10 : ℚ), (-20 : ℚ)) := by decide
  have h := latlon_to_geometry_spec "10, -20" (10 : ℚ) (-20 : ℚ) hp
  exact ⟨hp, h.1 probeNone,
    h.2.2 (by rw [abs_of_nonneg] <;> norm_num)
      (by rw [abs_of_nonpos] <;> norm_num)⟩

/-- Modelled from the spec: the boundary with the external codec libraries
(spec §1 and §6): WKT parser, GeoJSON geometry and Feature decoders, a
FeatureCollection decoder, and the geohash decoder producing the hash's
bounding box. The core only calls these. -/
structure Codecs where
  wktParse : String → Except ConversionError Geometry
  geoJsonGeometry : String → Except ConversionError Geometry
  geoJsonFeature : String → Except ConversionError Geometry
  geoJsonFeatureCollection : String → Except ConversionError Geometry
  geohashBbox : String → Geometry

/-- Modelled from the spec: the per-tag decode rules of GeometryBridge
(missing geoq entity module), spec §4.2. LatLon decoding is concrete;
the other formats delegate to the external codecs. -/
def convertRaw (codecs : Codecs) (kind : FormatTag) (raw : String) :
    Except ConversionError Geometry :=
  match kind with
  | FormatTag.LatLon => latlonGeometry raw
  | FormatTag.Geohash => Except.ok (codecs.geohashBbox raw)
  | FormatTag.Wkt => codecs.wktParse raw
  | FormatTag.GeoJsonGeometry => codecs.geoJsonGeometry raw
  | FormatTag.GeoJsonFeature => codecs.geoJsonFeature raw
  | FormatTag.GeoJsonFeatureCollection => codecs.geoJsonFeatureCollection raw
  | FormatTag.Unrecognized => Except.error (ConversionError.parseError raw)

/-- Modelled from the spec: the Entity record (missing geoq entity module),
spec §3: the raw original text, the format tag, and the memo cell for the
converted geometry. -/
structure Entity where
  raw : String
  kind : FormatTag
  cached_geometry : Option Geometry

/-- Modelled from the spec: Entity.to_geometry (missing geoq entity
module), spec §4.2: memoized per Entity instance. State passing makes the
memo cell explicit: the call returns the conversion result together with
the possibly-updated Entity. -/
def to_geometry (codecs : Codecs) (e : Entity) :
    Except ConversionError Geometry × Entity :=
  match e.cached_geometry with
  | some g => (Except.ok g, e)
  | none =>
    match convertRaw codecs e.kind e.raw with
    | Except.ok g => (Except.ok g, { e with cached_geometry := some g })
    | Except.error err => (Except.error err, e)

/-- A call on an Entity whose memo cell is populated returns the cached
geometry and leaves the Entity unchanged. -/
lemma to_geometry_of_cached (codecs : Codecs) (e : Entity) (g : Geometry)
    (h : e.cached_geometry = some g) :
    to_geometry codecs e = (Except.ok g, e) := by
  simp [to_geometry, h]

/-- C6: to_geometry is idempotently memoized: the memo cell is populated by
the first successful conversion, a call on an Entity whose cell is already
populated returns the cached geometry unchanged without recomputing or
mutating the Entity, and hence every subsequent call after the cell is
populated returns the identical cached result. -/
theorem to_geometry_memoized (codecs : Codecs) (e : Entity) :
    (∀ g, e.cached_geometry = some g → to_geometry codecs e = (Except.ok g, e)) ∧
    (e.cached_geometry = none → ∀ g, convertRaw codecs e.kind e.raw = Except.ok g →
      to_geometry codecs e = (Except.ok g, { e with cached_geometry := some g })) ∧
    (∀ g, ((to_geometry codecs e).2).cached_geometry = some g →
      to_geometry codecs ((to_geometry codecs e).2) =
        (Except.ok g, (to_geometry codecs e).2)) := by
  refine ⟨?_, ?_, ?_⟩
  · intro g hg; exact to_geometry_of_cached codecs e g hg
  · intro hnone g hconv; simp [to_geometry, hnone, hconv]
  · intro g hg; exact to_geometry_of_cached codecs _ g hg

/-- Codecs whose external parsers all fail and whose geohash decoder
returns a degenerate box, for concrete evaluations. -/
def failingCodecs : Codecs where
  wktParse := fun raw => Except.error (ConversionError.parseError raw)
  geoJsonGeometry := fun raw => Except.error (ConversionError.parseError raw)
  geoJsonFeature := fun _ => Except.error ConversionError.missingGeometryError
  geoJsonFeatureCollection := fun raw => Except.error (ConversionError.parseError raw)
  geohashBbox := fun _ => Geometry.polygon []

/-- Witness for C6: converting the LatLon entity "1,2" populates the memo
cell with the Point (2, 1), and a second call on the updated Entity returns
the identical cached result. -/
theorem to_geometry_memoized_witness :
    to_geometry failingCodecs
        { raw := "1,2", kind := FormatTag.LatLon, cached_geometry := none } =
      (Except.ok (Geometry.point 2 1),
       { raw := "1,2", kind := FormatTag.LatLon,
         cached_geometry := some (Geometry.point 2 1) }) ∧
    to_geometry failingCodecs
        { raw := "1,2", kind := FormatTag.LatLon,
          cached_geometry := some (Geometry.point 2 1) } =
      (Except.ok (Geometry.point 2 1),
       { raw := "1,2", kind := FormatTag.LatLon,
         cached_geometry := some (Geometry.point 2 1) }) := by
  have hconv : convertRaw failingCodecs FormatTag.LatLon "1,2" =
      Except.ok (Geometry.point 2 1) := by
    have h1 : latlonParse "1,2" = some ((1 : ℚ), (2 : ℚ)) := by decide
    have h2 : ¬((90 : ℚ) < |(1 : ℚ)| ∨ (180 : ℚ) < |(2 : ℚ)|) := by norm_num
    simp only [convertRaw, latlonGeometry, h1, if_neg h2]
  constructor
  · exact (to_geometry_memoized failingCodecs
      { raw := "1,2", kind := FormatTag.LatLon, cached_geometry := none }).2.1
      rfl (Geometry.point 2 1) hconv
  · exact (to_geometry_memoized failingCodecs
      { raw := "1,2", kind := FormatTag.LatLon,
        cached_geometry := some (Geometry.point 2 1) }).1
      (Geometry.point 2 1) rfl

/-- A line is nonblank when something remains after trimming whitespace
(spec §4.3: one Entity per non-empty line, blank lines skipped). -/
def nonblank (l : String) : Bool :=
  decide (trimChars l.data ≠ [])

/-- An Entity as created at the moment a line is read: classified tag, raw
text, empty memo cell (spec §3 lifecycle). -/
def mkEntity (probe : String → Option GeoJsonKind) (l : String) : Entity :=
  { raw := l, kind := classify probe l, cached_geometry := none }

/-- Modelled from the spec: EntityStream (missing geoq input module), spec
§4.3: one Entity per nonblank line of the source, in order. -/
def entityStream (probe : String → Option GeoJsonKind) (lines : List String) :
    List Entity :=
  (lines.filter nonblank).map (mkEntity probe)

/-- The successful payload of a conversion result, none on error. -/
def exceptOk? : Except ConversionError Geometry → Option Geometry
  | Except.ok g => some g
  | Except.error _ => none

/-- Modelled from the spec: a consumer that converts each stream entity and
keeps the successful geometries, recovering per-item conversion failures
locally by dropping the offending item (spec §4.3 and §7 propagation
policy). -/
def pipelineOutputs (codecs : Codecs) (entities : List Entity) : List Geometry :=
  entities.filterMap (fun e => exceptOk? (to_geometry codecs e).1)

/-- C4: per-item conversion failures are local to the item: a nonblank line
whose conversion fails is still emitted as an Entity by the stream, and the
pipeline over a stream containing it yields exactly the outputs of the
entities before it followed by the outputs of the entities after it — the
failure never aborts the stream or the run. -/
theorem stream_failure_is_local (probe : String → Option GeoJsonKind)
    (codecs : Codecs) (pre post : List String) (bad : String)
    (hnb : nonblank bad = true)
    (hfail : ∃ err, (to_geometry codecs (mkEntity probe bad)).1 = Except.error err) :
    mkEntity probe bad ∈ entityStream probe (pre ++ bad :: post) ∧
    pipelineOutputs codecs (entityStream probe (pre ++ bad :: post)) =
      pipelineOutputs codecs (entityStream probe pre) ++
        pipelineOutputs codecs (entityStream probe post) := by
  obtain ⟨err, herr⟩ := hfail
  constructor
  · simp [entityStream, List.filter_append, List.filter_cons, hnb]
  · simp [entityStream, pipelineOutputs, List.filter_append, List.filter_cons,
      hnb, List.filterMap_append, List.filterMap_cons, herr, exceptOk?]

/-- Witness for C4: the malformed-but-classifiable line "POINT (1" (tagged
Wkt, whose conversion fails) sits between the valid lines "1,2" and "3,4";
it is still emitted as an Entity, and the pipeline still yields both
neighboring points. -/
theorem stream_failure_is_local_witness :
    nonblank "POINT (1" = true ∧
    mkEntity probeNone "POINT (1" ∈
      entityStream probeNone ["1,2", "POINT (1", "3,4"] ∧
    pipelineOutputs failingCodecs (entityStream probeNone ["1,2", "POINT (1", "3,4"]) =
      pipelineOutputs failingCodecs (entityStream probeNone ["1,2"]) ++
        pipelineOutputs failingCodecs (entityStream probeNone ["3,4"]) := by
  have hnb : nonblank "POINT (1" = true := by decide
  have hkind : classify probeNone "POINT (1" = FormatTag.Wkt := by decide
  have hfail : ∃ err, (to_geometry failingCodecs (mkEntity probeNone "POINT (1")).1 =
      Except.error err := by
    refine ⟨ConversionError.parseError "POINT (1", ?_⟩
    simp [to_geometry, mkEntity, hkind, convertRaw, failingCodecs]
  have h := stream_failure_is_local probeNone failingCodecs ["1,2"] ["3,4"]
    "POINT (1" hnb hfail
  exact ⟨hnb, h.1, h.2⟩

/-- Modelled from the spec: the per-entity decision of PredicateFilter
(missing geoq filter module), spec §4.4: convert the stream entity; on
conversion failure drop it; otherwise emit its raw text when the predicate
holds against any query geometry (logical OR), with the negate flag
inverting the final boolean. -/
def entityPass (codecs : Codecs) (pred : Geometry → Geometry → Bool)
    (queries : List Geometry) (negate : Bool) (e : Entity) : Option String :=
  match exceptOk? (to_geometry codecs e).1 with
  | none => none
  | some g => if (queries.any (fun q => pred q g)) ≠ negate then some e.raw else none

/-- Modelled from the spec: PredicateFilter over a stream (missing geoq
filter module), spec §4.4: emits the raw text of passing entities in
stream order. -/
def predicateFilter (codecs : Codecs) (pred : Geometry → Geometry → Bool)
    (queries : List Geometry) (negate : Bool) (entities : List Entity) :
    List String :=
  entities.filterMap (entityPass codecs pred queries negate)

/-- Each convertible entity is emitted by exactly one of the negate=false
and negate=true runs, so the two output lengths sum to the number of
convertible entities in the stream. -/
lemma predicateFilter_partition_length (codecs : Codecs)
    (pred : Geometry → Geometry → Bool) (queries : List Geometry)
    (entities : List Entity) :
    (predicateFilter codecs pred queries false entities).length +
      (predicateFilter codecs pred queries true entities).length =
      (entities.filter
        (fun e => (exceptOk? (to_geometry codecs e).1).isSome)).length := by
  induction entities with
  | nil => simp [predicateFilter]
  | cons e rest ih =>
    cases hg : exceptOk? (to_geometry codecs e).1 with
    | none =>
      simp only [predicateFilter, List.filterMap_cons, entityPass, hg,
        List.filter_cons] at *
      simpa [hg] using ih
    | some g =>
      cases hb : queries.any (fun q => pred q g) with
      | false =>
        simp only [predicateFilter, List.filterMap_cons, entityPass, hg, hb,
          List.filter_cons] at *
        simp [hg]
        omega
      | true =>
        simp only [predicateFilter, List.filterMap_cons, entityPass, hg, hb,
          List.filter_cons] at *
        simp [hg]
        omega

/-- C5: a convertible stream entity passes the filter with negate=false
exactly when the predicate holds against at least one query geometry
(logical OR across the query set), passes with negate=true exactly when it
holds against none, and over any stream the negate=true output is the
complement of the negate=false output within the convertible entities: the
two output lengths sum to the number of convertible entities. -/
theorem filter_any_query_and_negate_complement (codecs : Codecs)
    (pred : Geometry → Geometry → Bool) (queries : List Geometry)
    (e : Entity) (g : Geometry)
    (hok : (to_geometry codecs e).1 = Except.ok g) :
    (entityPass codecs pred queries false e = some e.raw ↔
      queries.any (fun q => pred q g) = true) ∧
    (entityPass codecs pred queries true e = some e.raw ↔
      queries.any (fun q => pred q g) = false) ∧
    (∀ entities : List Entity,
      (predicateFilter codecs pred queries false entities).length +
        (predicateFilter codecs pred queries true entities).length =
        (entities.filter
          (fun x => (exceptOk? (to_geometry codecs x).1).isSome)).length) := by
  refine ⟨?_, ?_, predicateFilter_partition_length codecs pred queries⟩
  · cases hb : queries.any (fun q => pred q g) <;>
      simp [entityPass, hok, exceptOk?, hb]
  · cases hb : queries.any (fun q => pred q g) <;>
      simp [entityPass, hok, exceptOk?, hb]

/-- Witness for C5: with the single query point (2, 1) and a predicate that
checks coordinate equality with a point, the LatLon entity "1,2" converts
to the point (2, 1), passes with negate=false, and is rejected with
negate=true. -/
theorem filter_any_query_and_negate_complement_witness :
    (to_geometry failingCodecs (mkEntity probeNone "1,2")).1 =
      Except.ok (Geometry.point 2 1) ∧
    entityPass failingCodecs
        (fun q g => match q, g with
          | Geometry.point a b, Geometry.point c d => a = c ∧ b = d
          | _, _ => false)
        [Geometry.point 2 1] false (mkEntity probeNone "1,2") = some "1,2" ∧
    entityPass failingCodecs
        (fun q g => match q, g with
          | Geometry.point a b, Geometry.point c d => a = c ∧ b = d
          | _, _ => false)
        [Geometry.point 2 1] true (mkEntity probeNone "1,2") ≠ some "1,2" := by
  have hkind : classify probeNone "1,2" = FormatTag.LatLon := by decide
  have h1 : latlonParse "1,2" = some ((1 : ℚ), (2 : ℚ)) := by decide
  have h2 : ¬((90 : ℚ) < |(1 : ℚ)| ∨ (180 : ℚ) < |(2 : ℚ)|) := by norm_num
  have hok : (to_geometry failingCodecs (mkEntity probeNone "1,2")).1 =
      Except.ok (Geometry.point 2 1) := by
    simp only [to_geometry, mkEntity, hkind, convertRaw, latlonGeometry, h1,
      if_neg h2]
  have h := filter_any_query_and_negate_complement failingCodecs
    (fun q g => match q, g with
      | Geometry.point a b, Geometry.point c d => a = c ∧ b = d
      | _, _ => false)
    [Geometry.point 2 1] (mkEntity probeNone "1,2") (Geometry.point 2 1) hok
  refine ⟨hok, h.1.mpr (by simp), ?_⟩
  intro hcontra
  have := h.2.1.mp hcontra
  simp at this

/-- Modelled from the spec: the contains predicate precondition (missing
geoq filter module; the CLI declaration is at src/main.rs lines 98-106),
spec §3 and §8: contains is only defined when the query geometry is a
Polygon or MultiPolygon; otherwise it fails with
UnsupportedPredicateGeometry. `containsImpl` stands for the external
geometry algorithms library of spec §6. -/
def containsPredicate (containsImpl : Geometry → Geometry → Bool)
    (a b : Geometry) : Except ConversionError Bool :=
  match a with
  | Geometry.polygon rings => Except.ok (containsImpl (Geometry.polygon rings) b)
  | Geometry.multiPolygon polys =>
    Except.ok (containsImpl (Geometry.multiPolygon polys) b)
  | _ => Except.error ConversionError.unsupportedPredicateGeometry

/-- C7: the contains predicate fails with UnsupportedPredicateGeometry
whenever its first (query) geometry is a Point or a LineString, and more
generally succeeds exactly when the query geometry is a Polygon or
MultiPolygon — the precondition the filter command enforces. -/
theorem contains_requires_polygon (containsImpl : Geometry → Geometry → Bool)
    (a b : Geometry) :
    ((∃ lon lat, a = Geometry.point lon lat) ∨
      (∃ cs, a = Geometry.lineString cs) →
      containsPredicate containsImpl a b =
        Except.error ConversionError.unsupportedPredicateGeometry) ∧
    ((∃ rings, a = Geometry.polygon rings) ∨
      (∃ polys, a = Geometry.multiPolygon polys) →
      ∃ r : Bool, containsPredicate containsImpl a b = Except.ok r) := by
  constructor
  · rintro (⟨lon, lat, rfl⟩ | ⟨cs, rfl⟩) <;> simp [containsPredicate]
  · rintro (⟨rings, rfl⟩ | ⟨polys, rfl⟩)
    · exact ⟨containsImpl (Geometry.polygon rings) b, rfl⟩
    · exact ⟨containsImpl (Geometry.multiPolygon polys) b, rfl⟩

/-- Witness for C7: with a Point query geometry the contains predicate
fails with UnsupportedPredicateGeometry; with a Polygon query geometry it
succeeds. -/
theorem contains_requires_polygon_witness :
    containsPredicate (fun _ _ => true) (Geometry.point 0 0)
        (Geometry.point 1 1) =
      Except.error ConversionError.unsupportedPredicateGeometry ∧
    ∃ r : Bool, containsPredicate (fun _ _ => true) (Geometry.polygon [])
        (Geometry.point 1 1) = Except.ok r :=
  ⟨(contains_requires_polygon (fun _ _ => true) (Geometry.point 0 0)
      (Geometry.point 1 1)).1 (Or.inl ⟨0, 0, rfl⟩),
   (contains_requires_polygon (fun _ _ => true) (Geometry.polygon [])
      (Geometry.point 1 1)).2 (Or.inl ⟨[], rfl⟩)⟩

/-- Modelled from the spec: the geoq Error enum (missing geoq error
module), spec §7 error taxonomy, with the UnknownCommand dispatch error of
src/main.rs line 26. -/
inductive Error where
  | unknownCommand
  | conversionError (e : ConversionError)
  | configurationError (msg : String)
deriving DecidableEq, Repr

/-- Modelled from the spec: Rust's derived Debug formatting for the geoq
Error enum, as printed by the `eprintln` at src/main.rs line 211. -/
def debugFormat : Error → String
  | Error.unknownCommand => "UnknownCommand"
  | Error.conversionError ConversionError.rangeError => "ConversionError(RangeError)"
  | Error.conversionError (ConversionError.parseError raw) =>
    "ConversionError(ParseError(" ++ raw ++ "))"
  | Error.conversionError ConversionError.missingGeometryError =>
    "ConversionError(MissingGeometryError)"
  | Error.conversionError ConversionError.unsupportedPredicateGeometry =>
    "ConversionError(UnsupportedPredicateGeometry)"
  | Error.configurationError msg => "ConfigurationError(" ++ msg ++ ")"

/-- The observable outcome of the process: exit code and the lines written
to standard error. -/
structure ProcessOutcome where
  exitCode : Nat
  stderrLines : List String
deriving DecidableEq, Repr

/-- The error handling of main, src/main.rs lines 210-214: when run returns
an error, print it to standard error debug-formatted and exit with code 1;
otherwise main returns normally and the process exits with code 0. -/
def mainOutcome (r : Except Error Unit) : ProcessOutcome :=
  match r with
  | Except.ok _ => { exitCode := 0, stderrLines := [] }
  | Except.error e =>
    { exitCode := 1, stderrLines := ["Application error: " ++ debugFormat e] }

/-- C8: the process exits with code 1 exactly when run returns an error and
with code 0 exactly when run succeeds, and on error the debug-formatted
error value is printed to standard error. -/
theorem main_exit_code_and_stderr (r : Except Error Unit) :
    ((mainOutcome r).exitCode = 1 ↔ ∃ e, r = Except.error e) ∧
    ((mainOutcome r).exitCode = 0 ↔ r = Except.ok ()) ∧
    (∀ e, r = Except.error e →
      (mainOutcome r).stderrLines = ["Application error: " ++ debugFormat e]) := by
  refine ⟨?_, ?_, ?_⟩
  · cases r with
    | ok u => simp [mainOutcome]
    | error e => simp [mainOutcome]
  · cases r with
    | ok u => simp [mainOutcome]
    | error e => simp [mainOutcome]
  · rintro e rfl; simp [mainOutcome]

/-- Witness for C8: an UnknownCommand error exits with code 1 and prints
the debug-formatted error value to standard error. -/
theorem main_exit_code_and_stderr_witness :
    (mainOutcome (Except.error Error.unknownCommand)).exitCode = 1 ∧
    (mainOutcome (Except.error Error.unknownCommand)).stderrLines =
      ["Application error: UnknownCommand"] ∧
    (mainOutcome (Except.ok ())).exitCode = 0 :=
  ⟨(main_exit_code_and_stderr (Except.error Error.unknownCommand)).1.mpr
      ⟨Error.unknownCommand, rfl⟩,
   (main_exit_code_and_stderr (Except.error Error.unknownCommand)).2.2
      Error.unknownCommand rfl,
   (main_exit_code_and_stderr (Except.ok ())).2.1.mpr rfl⟩

/-- The run dispatcher of src/main.rs lines 10-28: clap's subcommand()
yields the subcommand name and optionally its matches; each named handler
lives in the absent geoq::commands module, so handlers are abstracted as a
dispatch function from the subcommand name; any other pair falls through to
the UnknownCommand error. -/
def run (dispatch : String → Except Error Unit) (sub : String × Option Unit) :
    Except Error Unit :=
  match sub with
  | (_, none) => Except.error Error.unknownCommand
  | (name, some _) =>
    if name = "wkt" then dispatch "wkt"
    else if name = "read" then dispatch "read"
    else if name = "gj" then dispatch "gj"
    else if name = "gh" then dispatch "gh"
    else if name = "map" then dispatch "map"
    else if name = "snip" then dispatch "snip"
    else if name = "filter" then dispatch "filter"
    else if name = "json" then dispatch "json"
    else if name = "centroid" then dispatch "centroid"
    else if name = "whereami" then dispatch "whereami"
    else if name = "simplify" then dispatch "simplify"
    else if name = "measure" then dispatch "measure"
    else if name = "bbox" then dispatch "bbox"
    else if name = "shp" then dispatch "shp"
    else Except.error Error.unknownCommand

/-- The names of the fourteen dispatch handlers of src/main.rs lines
12-25. -/
def dispatchNames : List String :=
  ["wkt", "read", "gj", "gh", "map", "snip", "filter", "json", "centroid",
   "whereami", "simplify", "measure", "bbox", "shp"]

/-- C9: when the parsed subcommand name matches none of the fourteen
dispatch handlers, run returns the UnknownCommand error, whatever the
handlers themselves do. -/
theorem run_unknown_command (dispatch : String → Except Error Unit)
    (name : String) (m : Option Unit) (h : name ∉ dispatchNames) :
    run dispatch (name, m) = Except.error Error.unknownCommand := by
  simp only [dispatchNames, List.mem_cons, List.not_mem_nil, or_false,
    not_or] at h
  cases m with
  | none => rfl
  | some u =>
    simp only [run, if_neg h.1, if_neg h.2.1, if_neg h.2.2.1, if_neg h.2.2.2.1,
      if_neg h.2.2.2.2.1, if_neg h.2.2.2.2.2.1, if_neg h.2.2.2.2.2.2.1,
      if_neg h.2.2.2.2.2.2.2.1, if_neg h.2.2.2.2.2.2.2.2.1,
      if_neg h.2.2.2.2.2.2.2.2.2.1, if_neg h.2.2.2.2.2.2.2.2.2.2.1,
      if_neg h.2.2.2.2.2.2.2.2.2.2.2.1, if_neg h.2.2.2.2.2.2.2.2.2.2.2.2.1,
      if_neg h.2.2.2.2.2.2.2.2.2.2.2.2.2]

/-- Witness for C9: the unregistered subcommand name "frobnicate" yields
the UnknownCommand error. -/
theorem run_unknown_command_witness :
    run (fun _ => Except.ok ()) ("frobnicate", some ()) =
      Except.error Error.unknownCommand :=
  run_unknown_command (fun _ => Except.ok ()) "frobnicate" (some ()) (by decide)

/-- The observable outcome of the whole invocation: either the argument
parser printed help and terminated the process, or run was called and
produced a result. -/
inductive MainOutcome where
  | helpExit
  | ran (r : Except Error Unit)

/-- Modelled from the spec: main of src/main.rs lines 190-213 around the
external clap parser, which is configured with
AppSettings::SubcommandRequiredElseHelp at line 192: when the command line
carries no subcommand, get_matches prints help and terminates the process,
so run is never called; otherwise the parsed subcommand is passed to run.
The command line is abstracted to the optional subcommand clap extracts
from it. -/
def geoqMain (dispatch : String → Except Error Unit)
    (argvSub : Option (String × Option Unit)) : MainOutcome :=
  match argvSub with
  | none => MainOutcome.helpExit
  | some sub => MainOutcome.ran (run dispatch sub)

/-- C10: invoking the program with no subcommand ends in the help-and-exit
path of the argument parser, never in a call to run: run's result is
observed only when a subcommand is present, so the UnknownCommand fallback
branch cannot be reached via an absent subcommand. -/
theorem no_subcommand_prints_help_before_run
    (dispatch : String → Except Error Unit) :
    geoqMain dispatch none = MainOutcome.helpExit ∧
    (∀ r, geoqMain dispatch none ≠ MainOutcome.ran r) ∧
    (∀ argvSub r, geoqMain dispatch argvSub = MainOutcome.ran r →
      ∃ sub, argvSub = some sub ∧ r = run dispatch sub) := by
  refine ⟨rfl, fun r => by simp [geoqMain], ?_⟩
  intro argvSub r hr
  cases argvSub with
  | none => simp [geoqMain] at hr
  | some sub =>
    refine ⟨sub, rfl, ?_⟩
    simpa [geoqMain] using hr.symm

/-- Witness for C10: with no subcommand the outcome is the help exit; with
the "wkt" subcommand present, the outcome is a run result and the
subcommand is necessarily present. -/
theorem no_subcommand_prints_help_before_run_witness :
    geoqMain (fun _ => Except.ok ()) none = MainOutcome.helpExit ∧
    ∃ sub, (some ("wkt", some ()) : Option (String × Option Unit)) = some sub ∧
      run (fun _ => Except.ok ()) ("wkt", some ()) =
        run (fun _ => Except.ok ()) sub :=
  ⟨(no_subcommand_prints_help_before_run (fun _ => Except.ok ())).1,
   (no_subcommand_prints_help_before_run (fun _ => Except.ok ())).2.2
     (some ("wkt", some ())) (run (fun _ => Except.ok ()) ("wkt", some ())) rfl⟩
